import Mathlib

/-!
Verification of the StudyBuddy local/remote state-synchronization engine.

The definitions below are a shallow embedding of the reconciliation engine in
src/app/hooks/useStudyData.ts (which contains two variants of the hook: the
primary one and a second, older variant after the separator), together with the
stop-study mutation shared by src/app/timer/page.tsx and
src/app/dashboard/page.tsx.

Modelling conventions:
  - React state (the canonical in-memory snapshot) is passed explicitly.
  - localStorage is a record with one optional field per key used by the code;
    JSON round-tripping is treated as the identity on the typed values.
  - A missing localStorage key is None; the code reads keys with the defaults
    of the source: empty list, empty record, zero, empty string.
  - The remote document returned by /api/sync is a record of optional fields;
    the code reads its fields with `data.x || default`, which for these field
    types coincides with defaulting a missing field.
  - Network effects are made explicit: `saveData` reports the remote write it
    attempts (if any); `load` takes the outcome of its remote read as input.
  - JS numbers holding whole seconds and streak counts are modelled as Int,
    with Int.fdiv for Math.floor division.
-/

namespace StudyBuddy

/-- A todo item, from the Todo interface of useStudyData.ts. -/
structure Todo where
  id : Nat
  text : String
  completed : Bool
deriving DecidableEq, Repr

/-- A scheduled event, from the Event interface of useStudyData.ts. -/
structure Event where
  id : Nat
  text : String
  time : Option String
deriving DecidableEq, Repr

/-- Calendar-day key (the code uses Date.toDateString strings). -/
abbrev DayKey := String

/-- The events record: day key to list of events, insertion ordered. -/
abbrev EventMap := List (DayKey × List Event)

/-- The study-sessions record: day key to accumulated study seconds. -/
abbrev SessionMap := List (DayKey × Int)

/-- A full snapshot of the user data: the five state slices held by the hook
(todos, events, studySessions, loginStreak, lastLogin). -/
structure Snapshot where
  todos : List Todo
  events : EventMap
  studySessions : SessionMap
  loginStreak : Int
  lastLogin : String
deriving DecidableEq, Repr

/-- The initial values of the five useState slices in useStudyData.ts. -/
def emptySnapshot : Snapshot :=
  { todos := [], events := [], studySessions := [], loginStreak := 0, lastLogin := "" }

/-- A partial update, from the DashboardData interface of useStudyData.ts:
every field optional; a present field is the complete new value of that slice. -/
structure DashboardData where
  todos : Option (List Todo) := none
  studySessions : Option SessionMap := none
  events : Option EventMap := none
  loginStreak : Option Int := none
  lastLogin : Option String := none
deriving DecidableEq, Repr

/-- The `overrides.x ?? current.x` computation of finalData in saveData
(step 2, GET LATEST, of the primary variant, where `current` is the in-memory
state). -/
def mergeOverrides (overrides : DashboardData) (cur : Snapshot) : Snapshot :=
  { todos := overrides.todos.getD cur.todos
    events := overrides.events.getD cur.events
    studySessions := overrides.studySessions.getD cur.studySessions
    loginStreak := overrides.loginStreak.getD cur.loginStreak
    lastLogin := overrides.lastLogin.getD cur.lastLogin }

/-- The five localStorage keys the engine uses; None models an absent key. -/
structure LocalStore where
  study_todos : Option (List Todo)
  study_events : Option EventMap
  study_sessions : Option SessionMap
  study_streak : Option Int
  study_last_login : Option String
deriving DecidableEq, Repr

/-- A localStorage with none of the five keys present. -/
def emptyLocalStore : LocalStore :=
  { study_todos := none, study_events := none, study_sessions := none,
    study_streak := none, study_last_login := none }

/-- Reading the five keys with the defaults used at the top of load: empty
list for todos, empty record for events and sessions, zero streak, empty
last-login string. -/
def readLocalStore (store : LocalStore) : Snapshot :=
  { todos := store.study_todos.getD []
    events := store.study_events.getD []
    studySessions := store.study_sessions.getD []
    loginStreak := store.study_streak.getD 0
    lastLogin := store.study_last_login.getD "" }

/-- Writing a full snapshot to the five localStorage keys
(the localStorage.setItem block of saveData and of load STEP 3). -/
def writeLocalStore (d : Snapshot) : LocalStore :=
  { study_todos := some d.todos
    study_events := some d.events
    study_sessions := some d.studySessions
    study_streak := some d.loginStreak
    study_last_login := some d.lastLogin }

/-- The next-auth session status values used by the hook. -/
inductive AuthStatus where
  | loading
  | unauthenticated
  | authenticated
deriving DecidableEq, Repr

/-- The result of one saveData call: whether the call returned early at the
gate check (with its console.warn), the localStorage contents afterwards, and
the payload of the remote POST it attempted, if any. -/
structure SaveResult where
  blocked : Bool
  warned : Bool
  store : LocalStore
  remoteWrite : Option Snapshot
deriving DecidableEq, Repr

/-- saveData of the primary useStudyData variant: (1) early return when
authenticated and hasLoadedFromCloud is still false, (2) finalData from
overrides then state, (3) unconditional local persist, (4) remote POST when
session is present and status is authenticated. -/
def saveData (status : AuthStatus) (session : Option Nat)
    (hasLoadedFromCloud : Bool) (state : Snapshot) (store : LocalStore)
    (overrides : DashboardData) : SaveResult :=
  if status = .authenticated ∧ hasLoadedFromCloud = false then
    { blocked := true, warned := true, store := store, remoteWrite := none }
  else
    let finalData := mergeOverrides overrides state
    { blocked := false
      warned := false
      store := writeLocalStore finalData
      remoteWrite :=
        if session.isSome ∧ status = .authenticated then some finalData
        else none }

/-- saveData of the second useStudyData variant (after the separator): no gate,
untouched slices read from localStorage rather than from state, local persist,
remote POST whenever a session is present. -/
def saveDataSecondVariant (session : Option Nat) (store : LocalStore)
    (overrides : DashboardData) : SaveResult :=
  let finalData := mergeOverrides overrides (readLocalStore store)
  { blocked := false
    warned := false
    store := writeLocalStore finalData
    remoteWrite := if session.isSome then some finalData else none }

/-- The remote document of /api/sync as read by load: each field may be
missing. -/
structure RemoteDoc where
  todos : Option (List Todo) := none
  studySessions : Option SessionMap := none
  events : Option EventMap := none
  loginStreak : Option Int := none
  lastLogin : Option String := none
deriving DecidableEq, Repr

/-- The `data.x || default` reads of load STEP 3 applied to a remote doc. -/
def remoteToSnapshot (d : RemoteDoc) : Snapshot :=
  { todos := d.todos.getD []
    events := d.events.getD []
    studySessions := d.studySessions.getD []
    loginStreak := d.loginStreak.getD 0
    lastLogin := d.lastLogin.getD "" }

/-- A remote document with every field present, holding the slices of a given
snapshot. -/
def toRemoteDoc (s : Snapshot) : RemoteDoc :=
  { todos := some s.todos
    studySessions := some s.studySessions
    events := some s.events
    loginStreak := some s.loginStreak
    lastLogin := some s.lastLogin }

/-- Outcome of the remote read issued by load: the fetch resolved and the
response carried `data` (possibly null), or the fetch (or body parse) threw. -/
inductive ReadOutcome where
  | success (data : Option RemoteDoc)
  | failure
deriving DecidableEq, Repr

/-- The observable result of one run of load: the in-memory state it leaves,
the localStorage contents, the hasLoadedFromCloud flag, and whether
console.error ran. -/
structure LoadResult where
  state : Snapshot
  store : LocalStore
  hasLoadedFromCloud : Bool
  errorLogged : Bool
deriving DecidableEq, Repr

/-- load of the primary useStudyData variant, with `gate` the value of
hasLoadedFromCloud.current on entry and `outcome` the result of its remote
read.  STEP 1 reads localStorage into state; when authenticated with a session
the remote read runs: a non-null document overwrites every slice of state and
localStorage and opens the gate; a null document leaves local data and opens
the gate; a thrown error is logged and, because the gate assignment sits after
the awaits inside the try block, leaves the gate as it was.  When
unauthenticated the gate is opened immediately; otherwise nothing changes. -/
def load (status : AuthStatus) (session : Option Nat) (gate : Bool)
    (store : LocalStore) (outcome : ReadOutcome) : LoadResult :=
  let localState := readLocalStore store
  if status = .authenticated ∧ session.isSome then
    match outcome with
    | .success (some d) =>
        let r := remoteToSnapshot d
        { state := r, store := writeLocalStore r
          hasLoadedFromCloud := true, errorLogged := false }
    | .success none =>
        { state := localState, store := store
          hasLoadedFromCloud := true, errorLogged := false }
    | .failure =>
        { state := localState, store := store
          hasLoadedFromCloud := gate, errorLogged := true }
  else if status = .unauthenticated then
    { state := localState, store := store
      hasLoadedFromCloud := true, errorLogged := false }
  else
    { state := localState, store := store
      hasLoadedFromCloud := gate, errorLogged := false }

/-!
Session-level trace model.  A `Sys` is the observable state of one mounted
hook: the session status, the gate ref, the in-memory snapshot, localStorage,
the remote document, and the remote writes that have been issued but have not
yet arrived at the store (the store itself is last-writer-wins, so its content
after a delivery is simply the delivered payload).  The actions interleave the
synchronous parts of the source: a status/session transition re-runs the load
effect up to its first await; the remote read resolving runs the rest of load;
a mutation runs the callers setState followed by saveData up to issuing its
POST; a delivery makes one in-flight POST arrive at the remote store.
-/

/-- Observable state of one mounted useStudyData hook plus its stores. -/
structure Sys where
  status : AuthStatus
  session : Option Nat
  gate : Bool
  canonical : Snapshot
  store : LocalStore
  remote : Option Snapshot
  pending : List Snapshot
  readPending : Bool
deriving DecidableEq, Repr

/-- The interleaved events of a session. -/
inductive Action where
  | setStatus (status : AuthStatus) (session : Option Nat)
  | resolveRead (outcome : ReadOutcome)
  | mutate (overrides : DashboardData)
  | deliver (i : Nat)
deriving DecidableEq, Repr

/-- One step of the session.  setStatus: the load effect re-runs, reading
localStorage into state, opening the gate at once when unauthenticated, and
issuing a remote read when authenticated with a session.  resolveRead: the
rest of load runs (overwrite from a non-null document and open the gate; open
the gate on null; on failure the catch block runs and the gate is untouched).
mutate: the caller replaces the touched slices in state, then saveData returns
early when authenticated with the gate closed, and otherwise persists locally
and, when authenticated with a session, issues one remote POST.  deliver i:
the i-th in-flight POST arrives at the last-writer-wins remote store. -/
def step (s : Sys) (a : Action) : Sys :=
  match a with
  | .setStatus st sess =>
      let s1 := { s with status := st, session := sess
                         canonical := readLocalStore s.store }
      match st with
      | .unauthenticated => { s1 with gate := true }
      | .authenticated =>
          if sess.isSome then { s1 with readPending := true } else s1
      | .loading => s1
  | .resolveRead outcome =>
      if s.readPending then
        match outcome with
        | .success (some d) =>
            let r := remoteToSnapshot d
            { s with canonical := r, store := writeLocalStore r
                     gate := true, readPending := false }
        | .success none => { s with gate := true, readPending := false }
        | .failure => { s with readPending := false }
      else s
  | .mutate overrides =>
      let s1 := { s with canonical := mergeOverrides overrides s.canonical }
      if s1.status = .authenticated ∧ s1.gate = false then s1
      else
        let s2 := { s1 with store := writeLocalStore s1.canonical }
        if s2.session.isSome ∧ s2.status = .authenticated then
          { s2 with pending := s2.pending ++ [s1.canonical] }
        else s2
  | .deliver i =>
      match s.pending[i]? with
      | some snap => { s with remote := some snap, pending := s.pending.eraseIdx i }
      | none => s

/-- Run a list of session events in order. -/
def run (s : Sys) (acts : List Action) : Sys :=
  acts.foldl step s

/-- The state of a freshly mounted hook: loading status, empty in-memory
slices, gate closed, no in-flight writes. -/
def initSys (store : LocalStore) (remote : Option Snapshot) : Sys :=
  { status := .loading, session := none, gate := false
    canonical := emptySnapshot, store := store, remote := remote
    pending := [], readPending := false }

/-- The only actions whose step can set the gate: the load effect running
while unauthenticated, or the remote read resolving without throwing. -/
def opensGate : Action → Bool
  | .setStatus .unauthenticated _ => true
  | .resolveRead (.success _) => true
  | _ => false

/-!
The stop-study mutation of src/app/timer/page.tsx and the first variant of
src/app/dashboard/page.tsx (handleStopStudy): the elapsed duration is
Math.floor of the millisecond difference over 1000, and todays entry becomes
its previous value (0 when absent) plus that duration.
-/

/-- Lookup of `m[k]` in a day-keyed JS object (association list with unique
keys, insertion ordered). -/
def lookupDay : SessionMap → DayKey → Option Int
  | [], _ => none
  | (k1, v1) :: rest, k => if k1 = k then some v1 else lookupDay rest k

/-- The spread update `{...m, [k]: v}` on a day-keyed JS object: an existing
key keeps its position and gets the new value, a new key is appended. -/
def setDay : SessionMap → DayKey → Int → SessionMap
  | [], k, v => [(k, v)]
  | (k1, v1) :: rest, k, v =>
      if k1 = k then (k, v) :: rest else (k1, v1) :: setDay rest k v

/-- handleStopStudy: with a running session started at `start` (milliseconds)
and stopped at `now`, add Math.floor((now - start) / 1000) seconds to todays
accumulated total; without a running session nothing changes. -/
def handleStopStudy (studyStartTime : Option Int) (now : Int) (today : DayKey)
    (sessions : SessionMap) : SessionMap :=
  match studyStartTime with
  | none => sessions
  | some start =>
      let duration := (now - start).fdiv 1000
      setDay sessions today ((lookupDay sessions today).getD 0 + duration)

/-- Concrete todo used in the scenario theorems. -/
def todoRead : Todo := { id := 1, text := "read ch.1", completed := false }

/-- A second concrete todo. -/
def todoNotes : Todo := { id := 2, text := "write notes", completed := false }

/-- A concrete event list for one day. -/
def gymEvents : List Event := [{ id := 3, text := "gym", time := some "18:00" }]

/-- A localStorage whose cached events differ from an empty in-memory state. -/
def cachedStore : LocalStore :=
  { study_todos := some []
    study_events := some [("Mon Jan 01 2024", gymEvents)]
    study_sessions := some []
    study_streak := some 0
    study_last_login := some "" }

/-- An authenticated session state with the gate open and nothing in flight. -/
def openAuthSys : Sys :=
  { status := .authenticated, session := some 1, gate := true
    canonical := emptySnapshot, store := emptyLocalStore, remote := none
    pending := [], readPending := false }

/-- An authenticated session state with the gate still closed. -/
def closedAuthSys : Sys :=
  { status := .authenticated, session := some 1, gate := false
    canonical := emptySnapshot, store := emptyLocalStore, remote := none
    pending := [], readPending := false }

/-!  Helper lemmas about the trace model. -/

theorem run_cons (s : Sys) (a : Action) (acts : List Action) :
    run s (a :: acts) = run (step s a) acts := rfl

theorem step_keeps_closed (s : Sys) (a : Action) (hg : s.gate = false)
    (hp : s.pending = []) (ha : opensGate a = false) :
    (step s a).gate = false ∧ (step s a).pending = [] ∧
      (step s a).remote = s.remote := by
  cases a with
  | setStatus st2 sess2 =>
      cases st2 with
      | loading => simp [step, hg, hp]
      | unauthenticated => simp [opensGate] at ha
      | authenticated =>
          by_cases h : sess2.isSome <;> simp [step, h, hg, hp]
  | resolveRead o =>
      cases o with
      | success d => simp [opensGate] at ha
      | failure =>
          by_cases h : s.readPending <;> simp [step, h, hg, hp]
  | mutate ov =>
      by_cases hst : s.status = .authenticated <;>
        simp [step, hst, hg, hp]
  | deliver i => simp [step, hp, hg]

theorem run_keeps_closed (acts : List Action) :
    ∀ s : Sys, s.gate = false → s.pending = [] →
      (∀ a ∈ acts, opensGate a = false) →
      (run s acts).gate = false ∧ (run s acts).pending = [] ∧
        (run s acts).remote = s.remote := by
  induction acts with
  | nil => intro s hg hp _; exact ⟨hg, hp, rfl⟩
  | cons a acts ih =>
      intro s hg hp hall
      have ha := hall a (List.mem_cons_self a acts)
      have h1 := step_keeps_closed s a hg hp ha
      have h2 := ih (step s a) h1.1 h1.2.1
        (fun b hb => hall b (List.mem_cons_of_mem a hb))
      rw [run_cons]
      exact ⟨h2.1, h2.2.1, h2.2.2.trans h1.2.2⟩

theorem step_gate_mono (s : Sys) (a : Action) (hg : s.gate = true) :
    (step s a).gate = true := by
  cases a with
  | setStatus st2 sess2 =>
      cases st2 with
      | loading => simp [step, hg]
      | unauthenticated => simp [step]
      | authenticated =>
          by_cases h : sess2.isSome <;> simp [step, h, hg]
  | resolveRead o =>
      cases o with
      | success d =>
          cases d <;> by_cases h : s.readPending <;> simp [step, h, hg]
      | failure =>
          by_cases h : s.readPending <;> simp [step, h, hg]
  | mutate ov =>
      by_cases hst : s.status = .authenticated ∧ s.gate = false
      · exact absurd hg (by simp [hst.2])
      · by_cases hw : s.session.isSome ∧ s.status = .authenticated <;>
          simp [step, hst, hw, hg]
  | deliver i =>
      cases h : s.pending[i]? <;> simp [step, h, hg]

/-!  Helper lemmas about day-keyed maps. -/

theorem lookupDay_setDay_self (m : SessionMap) (k : DayKey) (v : Int) :
    lookupDay (setDay m k v) k = some v := by
  induction m with
  | nil => simp [setDay, lookupDay]
  | cons p rest ih =>
      by_cases h : p.1 = k <;> simp [setDay, lookupDay, h, ih]

theorem lookupDay_setDay_ne (m : SessionMap) (k k2 : DayKey) (v : Int)
    (h : k2 ≠ k) : lookupDay (setDay m k v) k2 = lookupDay m k2 := by
  have hk : ¬(k = k2) := fun hh => h hh.symm
  induction m with
  | nil => simp [setDay, lookupDay, hk]
  | cons p rest ih =>
      obtain ⟨k1, v1⟩ := p
      by_cases h1 : k1 = k
      · have h2 : ¬(k1 = k2) := by rw [h1]; exact hk
        simp [setDay, lookupDay, h1, hk, h2]
      · by_cases h2 : k1 = k2 <;> simp [setDay, lookupDay, h1, h2, h, ih]

/-!  Claim theorems. -/

/-- C2 (amended): when the remote read issued by load throws, the in-memory
snapshot stays exactly the locally-loaded values, localStorage is untouched,
an error is logged, but the gate is left in its prior state rather than
opened; in particular a load that began with the gate closed leaves it
closed, so a subsequent authenticated saveData call is blocked. -/
theorem c2_read_failure_keeps_gate_closed (u : Nat) (g : Bool)
    (store : LocalStore) (state : Snapshot) (overrides : DashboardData) :
    load .authenticated (some u) g store .failure =
      { state := readLocalStore store, store := store
        hasLoadedFromCloud := g, errorLogged := true } ∧
    (saveData .authenticated (some u)
      (load .authenticated (some u) false store .failure).hasLoadedFromCloud
      state store overrides).blocked = true := by
  constructor
  · simp [load]
  · simp [load, saveData]

/-- C2, counterexample to the claim as stated: an authenticated load whose
remote read throws leaves the gate closed, and the next saveData call is
blocked — the spec asserts the gate still opens and mutations proceed. -/
theorem c2_counterexample :
    (load .authenticated (some 1) false emptyLocalStore .failure).hasLoadedFromCloud
        = false ∧
    (saveData .authenticated (some 1)
      (load .authenticated (some 1) false emptyLocalStore .failure).hasLoadedFromCloud
      (load .authenticated (some 1) false emptyLocalStore .failure).state
      emptyLocalStore { todos := some [todoRead] }).blocked = true := by
  constructor
  · rfl
  · rfl

/-- C3 (amended): every saveData call made in a configuration other than
authenticated-with-closed-gate writes the merged snapshot to all five
localStorage keys before returning, whatever the session, gate and network
outcome; but a call made while authenticated with the gate closed returns at
the gate check and skips the local write together with the remote one. -/
theorem c3_local_persist_unless_gated (status : AuthStatus)
    (session : Option Nat) (gate : Bool) (state : Snapshot)
    (store : LocalStore) (overrides : DashboardData)
    (h : ¬(status = .authenticated ∧ gate = false)) :
    (saveData status session gate state store overrides).store =
      writeLocalStore (mergeOverrides overrides state) ∧
    (saveData status session gate state store overrides).blocked = false ∧
    (saveData .authenticated session false state store overrides).store =
      store := by
  refine ⟨?_, ?_, ?_⟩ <;> simp [saveData, h]

/-- C3 witness: a concrete unauthenticated call instantiating the amended
theorem. -/
theorem c3_witness :
    ¬(AuthStatus.unauthenticated = .authenticated ∧ true = false) ∧
    ((saveData .unauthenticated none true emptySnapshot emptyLocalStore
        { todos := some [todoRead] }).store =
      writeLocalStore (mergeOverrides { todos := some [todoRead] } emptySnapshot) ∧
    (saveData .unauthenticated none true emptySnapshot emptyLocalStore
        { todos := some [todoRead] }).blocked = false ∧
    (saveData .authenticated none false emptySnapshot emptyLocalStore
        { todos := some [todoRead] }).store = emptyLocalStore) :=
  ⟨by decide,
   c3_local_persist_unless_gated .unauthenticated none true emptySnapshot
     emptyLocalStore { todos := some [todoRead] } (by decide)⟩

/-- C3, counterexample to the claim as stated: an authenticated saveData call
with the gate closed leaves localStorage untouched instead of holding the new
snapshot — local persistence is gated, contrary to the claim. -/
theorem c3_counterexample :
    (saveData .authenticated (some 1) false emptySnapshot emptyLocalStore
        { todos := some [todoRead] }).store = emptyLocalStore ∧
    (saveData .authenticated (some 1) false emptySnapshot emptyLocalStore
        { todos := some [todoRead] }).store ≠
      writeLocalStore (mergeOverrides { todos := some [todoRead] } emptySnapshot) ∧
    (saveData .authenticated (some 1) false emptySnapshot emptyLocalStore
        { todos := some [todoRead] }).blocked = true := by
  refine ⟨rfl, ?_, rfl⟩
  decide

/-- C4: an authenticated load whose remote read returns an existing document
(every slice present) makes the canonical snapshot equal to the remote
snapshot on every slice, whatever localStorage held, and overwrites the five
localStorage keys with the remote values before completing; the gate opens
and no error is logged. -/
theorem c4_remote_wins_on_first_load (u : Nat) (g : Bool)
    (store : LocalStore) (R : Snapshot) :
    load .authenticated (some u) g store (.success (some (toRemoteDoc R))) =
      { state := R, store := writeLocalStore R
        hasLoadedFromCloud := true, errorLogged := false } := by
  cases R
  simp [load, toRemoteDoc, remoteToSnapshot]

/-- C5 (amended): a saveData call naming only the tasks slice replaces that
slice and carries every untouched slice over unchanged; in the primary
variant the untouched values come from the in-memory state, while in the
second variant they are read back from the Durable Local Store (with the
load-time defaults), not from the in-memory state. -/
theorem c5_slice_independence (status : AuthStatus) (session : Option Nat)
    (gate : Bool) (state : Snapshot) (store : LocalStore)
    (session2 : Option Nat) (store2 : LocalStore) (T2 : List Todo)
    (h : ¬(status = .authenticated ∧ gate = false)) :
    (saveData status session gate state store { todos := some T2 }).store =
      writeLocalStore { state with todos := T2 } ∧
    (saveDataSecondVariant session2 store2 { todos := some T2 }).store =
      writeLocalStore { readLocalStore store2 with todos := T2 } := by
  constructor
  · simp [saveData, h, mergeOverrides]
  · simp [saveDataSecondVariant, mergeOverrides]

/-- C5 witness: concrete calls instantiating the amended theorem, with the
untouched events slice visibly carried over in both variants. -/
theorem c5_witness :
    ¬(AuthStatus.authenticated = .authenticated ∧ true = false) ∧
    ((saveData .authenticated (some 1) true emptySnapshot emptyLocalStore
        { todos := some [todoNotes] }).store =
      writeLocalStore { emptySnapshot with todos := [todoNotes] } ∧
    (saveDataSecondVariant (some 1) cachedStore
        { todos := some [todoNotes] }).store =
      writeLocalStore { readLocalStore cachedStore with todos := [todoNotes] }) :=
  ⟨by decide,
   c5_slice_independence .authenticated (some 1) true emptySnapshot
     emptyLocalStore (some 1) cachedStore [todoNotes] (by decide)⟩

/-- C5, counterexample to the claim as stated: in the second saveData variant
an untouched slice is read from the Durable Local Store, not from the
in-memory canonical snapshot — here the canonical snapshot holds no events
while localStorage caches one day of events, and the cached value is what the
call persists and uploads. -/
theorem c5_counterexample :
    (saveDataSecondVariant (some 1) cachedStore
        { todos := some [todoNotes] }).store.study_events =
      some [("Mon Jan 01 2024", gymEvents)] ∧
    (saveDataSecondVariant (some 1) cachedStore
        { todos := some [todoNotes] }).store.study_events ≠
      some emptySnapshot.events := by
  constructor
  · rfl
  · decide

/-- C8: a saveData call made while the status is unauthenticated (for example
an anonymous user appending a task) is never blocked, writes the new snapshot
to localStorage — the study_todos key holds the appended task — and attempts
no remote write; the second variant with no session attempts no remote write
either. -/
theorem c8_anonymous_mutate_local_only (session : Option Nat) (gate : Bool)
    (state : Snapshot) (store store2 : LocalStore) (t : Todo) :
    (saveData .unauthenticated session gate state store
        { todos := some (state.todos ++ [t]) }).remoteWrite = none ∧
    (saveData .unauthenticated session gate state store
        { todos := some (state.todos ++ [t]) }).store =
      writeLocalStore { state with todos := state.todos ++ [t] } ∧
    (saveData .unauthenticated session gate state store
        { todos := some (state.todos ++ [t]) }).store.study_todos =
      some (state.todos ++ [t]) ∧
    (saveData .unauthenticated session gate state store
        { todos := some (state.todos ++ [t]) }).blocked = false ∧
    (saveDataSecondVariant none store2
        { todos := some (state.todos ++ [t]) }).remoteWrite = none := by
  refine ⟨?_, ?_, ?_, ?_, ?_⟩ <;>
    simp [saveData, saveDataSecondVariant, mergeOverrides, writeLocalStore]

/-- C9: stopping a running study session replaces todays studySessions entry
with its previous value (0 when the key is absent) plus the floored,
non-negative elapsed seconds, and no day key ever decreases: todays
accumulated total does not go down and every other day is untouched. -/
theorem c9_stop_study_monotone (sessions : SessionMap) (start now : Int)
    (today k : DayKey) (h : start ≤ now) :
    lookupDay (handleStopStudy (some start) now today sessions) today =
      some ((lookupDay sessions today).getD 0 + (now - start).fdiv 1000) ∧
    (lookupDay sessions k).getD 0 ≤
      (lookupDay (handleStopStudy (some start) now today sessions) k).getD 0 := by
  have hdur : 0 ≤ (now - start).fdiv 1000 :=
    Int.fdiv_nonneg (by omega) (by omega)
  constructor
  · simp [handleStopStudy, lookupDay_setDay_self]
  · by_cases hk : k = today
    · subst hk
      simp [handleStopStudy, lookupDay_setDay_self]
      omega
    · simp [handleStopStudy, lookupDay_setDay_ne _ _ _ _ hk]

/-- C9 witness: a session of 65 seconds ending a day that already holds 600
accumulated seconds. -/
theorem c9_witness :
    (0 : Int) ≤ 65000 ∧
    (lookupDay (handleStopStudy (some 0) 65000 "Mon Jan 01 2024"
        [("Mon Jan 01 2024", 600)]) "Mon Jan 01 2024" =
      some ((lookupDay [("Mon Jan 01 2024", 600)] "Mon Jan 01 2024").getD 0 +
        ((65000 : Int) - 0).fdiv 1000) ∧
    (lookupDay [("Mon Jan 01 2024", 600)] "Mon Jan 01 2024").getD 0 ≤
      (lookupDay (handleStopStudy (some 0) 65000 "Mon Jan 01 2024"
        [("Mon Jan 01 2024", 600)]) "Mon Jan 01 2024").getD 0) :=
  ⟨by decide,
   c9_stop_study_monotone [("Mon Jan 01 2024", 600)] 0 65000
     "Mon Jan 01 2024" "Mon Jan 01 2024" (by decide)⟩

/-- C10: when an authenticated load finds an existing remote document, every
slice of the resulting canonical snapshot is the documents value for that
slice or the empty default when the field is missing ([] for todos and
events, [] for studySessions, 0 for loginStreak, the empty string for
lastLogin); the result never depends on the locally cached slices, and the
five localStorage keys are overwritten with exactly this snapshot. -/
theorem c10_missing_remote_slice_defaults (u : Nat) (g : Bool)
    (store : LocalStore) (d : RemoteDoc) :
    (load .authenticated (some u) g store (.success (some d))).state.todos =
      d.todos.getD [] ∧
    (load .authenticated (some u) g store (.success (some d))).state.events =
      d.events.getD [] ∧
    (load .authenticated (some u) g store
        (.success (some d))).state.studySessions = d.studySessions.getD [] ∧
    (load .authenticated (some u) g store
        (.success (some d))).state.loginStreak = d.loginStreak.getD 0 ∧
    (load .authenticated (some u) g store
        (.success (some d))).state.lastLogin = d.lastLogin.getD "" ∧
    (load .authenticated (some u) g store (.success (some d))).store =
      writeLocalStore
        (load .authenticated (some u) g store (.success (some d))).state := by
  refine ⟨?_, ?_, ?_, ?_, ?_, ?_⟩ <;> simp [load, remoteToSnapshot]

/-- C1 (amended): in any session trace containing no gate-opening event (no
load while unauthenticated and no remote read resolving without throwing),
the Remote Account Store never changes and no remote write is even issued; a
mutate step while authenticated with the gate closed changes nothing but the
in-memory snapshot; once the gate is open, every authenticated mutate step
issues exactly one remote write carrying the merged snapshot; and a remote
read that resolves by throwing leaves the gate exactly as it was, so it does
not unblock subsequent mutations. -/
theorem c1_gate_blocks_then_one_write_per_mutate :
    (∀ (store : LocalStore) (r0 : Option Snapshot) (acts : List Action),
        (∀ a ∈ acts, opensGate a = false) →
        (run (initSys store r0) acts).remote = r0 ∧
          (run (initSys store r0) acts).pending = []) ∧
    (∀ (s : Sys) (overrides : DashboardData),
        s.status = .authenticated → s.gate = false →
        step s (.mutate overrides) =
          { s with canonical := mergeOverrides overrides s.canonical }) ∧
    (∀ (s : Sys) (overrides : DashboardData),
        s.status = .authenticated → s.session.isSome = true → s.gate = true →
        (step s (.mutate overrides)).pending =
          s.pending ++ [mergeOverrides overrides s.canonical]) ∧
    (∀ s : Sys, (step s (.resolveRead .failure)).gate = s.gate) := by
  refine ⟨?_, ?_, ?_, ?_⟩
  · intro store r0 acts hall
    have h := run_keeps_closed acts (initSys store r0) rfl rfl hall
    exact ⟨h.2.2, h.2.1⟩
  · intro s overrides hst hg
    simp [step, hst, hg]
  · intro s overrides hst hsess hg
    simp [step, hst, hsess, hg]
  · intro s
    by_cases h : s.readPending <;> simp [step, h]

/-- C1 witness: a trace that authenticates and mutates before the remote read
resolves issues no remote write, a concrete closed-gate mutate only touches
the in-memory snapshot, a concrete open-gate mutate issues exactly one write,
and a failing read leaves the gate of a concrete state unchanged. -/
theorem c1_witness :
    ((run (initSys cachedStore none)
        [Action.setStatus .authenticated (some 1),
         Action.mutate { todos := some [todoRead] }]).remote = none ∧
     (run (initSys cachedStore none)
        [Action.setStatus .authenticated (some 1),
         Action.mutate { todos := some [todoRead] }]).pending = []) ∧
    step closedAuthSys (.mutate { todos := some [todoRead] }) =
      { closedAuthSys with
          canonical :=
            mergeOverrides { todos := some [todoRead] } closedAuthSys.canonical } ∧
    (step openAuthSys (.mutate { todos := some [todoRead] })).pending =
      openAuthSys.pending ++
        [mergeOverrides { todos := some [todoRead] } openAuthSys.canonical] ∧
    (step openAuthSys (.resolveRead .failure)).gate = openAuthSys.gate :=
  ⟨c1_gate_blocks_then_one_write_per_mutate.1 cachedStore none
      [Action.setStatus .authenticated (some 1),
       Action.mutate { todos := some [todoRead] }] (by decide),
   c1_gate_blocks_then_one_write_per_mutate.2.1 closedAuthSys
      { todos := some [todoRead] } rfl rfl,
   c1_gate_blocks_then_one_write_per_mutate.2.2.1 openAuthSys
      { todos := some [todoRead] } rfl rfl rfl,
   c1_gate_blocks_then_one_write_per_mutate.2.2.2 openAuthSys⟩

/-- C1, counterexample to the claim as stated: after the remote read resolves
by throwing, a subsequent mutate issues zero remote writes, not exactly one,
because the failing read left the gate closed. -/
theorem c1_counterexample :
    (run (initSys emptyLocalStore none)
        [Action.setStatus .authenticated (some 1),
         Action.resolveRead .failure,
         Action.mutate { todos := some [todoRead] }]).pending = [] ∧
    (run (initSys emptyLocalStore none)
        [Action.setStatus .authenticated (some 1),
         Action.resolveRead .failure,
         Action.mutate { todos := some [todoRead] }]).gate = false := by
  constructor <;> rfl

/-- C6 (amended): two mutate calls issued without awaiting the first issue two
independent remote writes with no queue or sequence guard; the last-writer-
wins remote store ends at whichever write arrives last, so it reflects B only
under in-order arrival, and ends at A when the first write completes after
the second. -/
theorem c6_last_arrival_wins (s : Sys) (A B : DashboardData)
    (hst : s.status = .authenticated) (hsess : s.session.isSome = true)
    (hg : s.gate = true) (hp : s.pending = []) :
    (run s [.mutate A, .mutate B, .deliver 1, .deliver 0]).remote =
      some (mergeOverrides A s.canonical) ∧
    (run s [.mutate A, .mutate B, .deliver 0, .deliver 0]).remote =
      some (mergeOverrides B (mergeOverrides A s.canonical)) := by
  constructor <;> simp [run, step, hst, hsess, hg, hp]

/-- C6 witness: the amended theorem instantiated at a concrete open
authenticated state and two concrete single-slice mutations. -/
theorem c6_witness :
    openAuthSys.status = .authenticated ∧ openAuthSys.gate = true ∧
    ((run openAuthSys
        [Action.mutate { todos := some [todoRead] },
         Action.mutate { todos := some [todoNotes] },
         Action.deliver 1, Action.deliver 0]).remote =
      some (mergeOverrides { todos := some [todoRead] } openAuthSys.canonical) ∧
    (run openAuthSys
        [Action.mutate { todos := some [todoRead] },
         Action.mutate { todos := some [todoNotes] },
         Action.deliver 0, Action.deliver 0]).remote =
      some (mergeOverrides { todos := some [todoNotes] }
        (mergeOverrides { todos := some [todoRead] } openAuthSys.canonical))) :=
  ⟨rfl, rfl,
   c6_last_arrival_wins openAuthSys { todos := some [todoRead] }
     { todos := some [todoNotes] } rfl rfl rfl rfl⟩

/-- C6, counterexample to the claim as stated: mutate(A) then mutate(B) with
the network round-trip of A completing after that of B leaves the remote
store holding the snapshot of A, not that of B. -/
theorem c6_counterexample :
    (run openAuthSys
        [Action.mutate { todos := some [todoRead] },
         Action.mutate { todos := some [todoNotes] },
         Action.deliver 1, Action.deliver 0]).remote =
      some { emptySnapshot with todos := [todoRead] } ∧
    ({ emptySnapshot with todos := [todoRead] } : Snapshot) ≠
      { emptySnapshot with todos := [todoNotes] } := by
  constructor
  · rfl
  · decide

/-- C7 (amended): the reconciliation gate is a one-way latch for the lifetime
of the mounted hook: it starts closed and, once open, no step of any kind —
mutation, load, re-resolution, or an identity transition such as signing out
and back in as a different identity — ever closes it again; the source never
resets hasLoadedFromCloud on identity change. -/
theorem c7_gate_latch_never_rearmed :
    (∀ (store : LocalStore) (r : Option Snapshot),
        (initSys store r).gate = false) ∧
    (∀ (s : Sys) (a : Action), s.gate = true → (step s a).gate = true) :=
  ⟨fun _ _ => rfl, step_gate_mono⟩

/-- C7 witness: a fresh mount has the gate closed, and a concrete identity
transition on an open-gate state leaves the gate open. -/
theorem c7_witness :
    (initSys emptyLocalStore none).gate = false ∧
    (step openAuthSys (Action.setStatus .authenticated (some 2))).gate = true :=
  ⟨c7_gate_latch_never_rearmed.1 emptyLocalStore none,
   c7_gate_latch_never_rearmed.2 openAuthSys
     (Action.setStatus .authenticated (some 2)) rfl⟩

/-- C7, counterexample to the claim as stated: after identity 1 authenticates
and its read resolves, signing out and signing in as identity 2 leaves the
gate open while the remote read of identity 2 is still outstanding — the
transition does not restore the closed state. -/
theorem c7_counterexample :
    (run (initSys emptyLocalStore none)
        [Action.setStatus .authenticated (some 1),
         Action.resolveRead (.success none),
         Action.setStatus .unauthenticated none,
         Action.setStatus .authenticated (some 2)]).gate = true ∧
    (run (initSys emptyLocalStore none)
        [Action.setStatus .authenticated (some 1),
         Action.resolveRead (.success none),
         Action.setStatus .unauthenticated none,
         Action.setStatus .authenticated (some 2)]).readPending = true := by
  constructor <;> rfl

end StudyBuddy
